import Mathlib

/-!
Verification development for the Google News redirect resolver
(`news-resolver.py`).  The script performs: GET a redirect page, extract
the `data-p` attribute of the `c-wiz[data-p]` element, rewrite the
`%.@.` marker, JSON-parse the token, build the `f.req` batch-execute
envelope, POST it, strip the `)]}'` marker from the response, and
extract the article URL from the doubly JSON-encoded reply.

The shallow embedding below models the script's data flow over explicit
transport responses.  JSON parsing/serialisation (Python's `json`
module) and HTML attribute lookup (BeautifulSoup's
`select_one` on tag `c-wiz` with attribute `data-p`) are third-party
libraries; they are modelled here for the value shapes the script
exercises: JSON null/booleans/integers/strings/arrays, and double-quoted
HTML attributes with entity escapes.  Python exceptions other than
transport failures (`AttributeError` on a missing element, decode
errors, index/type errors) all abort the run uncaught; the embedding
collapses them into a single parse-failure outcome, while transport
failures are the network-failure outcome.
-/

/-- JSON values as handled by the script: Python's `json` module
restricted to the shapes the script's data takes (numbers are modelled
as integers; floats and objects never occur in the exercised data). -/
inductive Json where
  | null : Json
  | bool : Bool → Json
  | num : Int → Json
  | str : String → Json
  | arr : List Json → Json

/-- Lowercase hexadecimal digit for a value below 16. -/
def hexDigit (n : Nat) : Char :=
  if n < 10 then Char.ofNat (48 + n) else Char.ofNat (87 + n)

/-- Escape one character the way Python's `json.dumps` does with its
default `ensure_ascii=True`: two-character short escapes for the common
control characters, `\uXXXX` for other control or non-ASCII characters
(surrogate pairs above the BMP), and the character itself otherwise. -/
def escChar (c : Char) : List Char :=
  if c = Char.ofNat 34 then ['\\', '"']
  else if c = '\\' then ['\\', '\\']
  else if c = Char.ofNat 10 then ['\\', 'n']
  else if c = Char.ofNat 13 then ['\\', 'r']
  else if c = Char.ofNat 9 then ['\\', 't']
  else if c = Char.ofNat 8 then ['\\', 'b']
  else if c = Char.ofNat 12 then ['\\', 'f']
  else if c.toNat < 32 ∨ 126 < c.toNat then
    let n := c.toNat
    if n < 65536 then
      ['\\', 'u', hexDigit (n / 4096 % 16), hexDigit (n / 256 % 16),
       hexDigit (n / 16 % 16), hexDigit (n % 16)]
    else
      let m := n - 65536
      let hi := 55296 + m / 1024
      let lo := 56320 + m % 1024
      ['\\', 'u', hexDigit (hi / 4096 % 16), hexDigit (hi / 256 % 16),
       hexDigit (hi / 16 % 16), hexDigit (hi % 16),
       '\\', 'u', hexDigit (lo / 4096 % 16), hexDigit (lo / 256 % 16),
       hexDigit (lo / 16 % 16), hexDigit (lo % 16)]
  else [c]

/-- Serialise a JSON string body (without the surrounding quotes). -/
def escString (s : String) : String :=
  ⟨s.data.flatMap escChar⟩

mutual

/-- Python's `json.dumps` on a JSON value, with the default separators,
which put one space after each comma. -/
def dumps : Json → String
  | Json.null => "null"
  | Json.bool true => "true"
  | Json.bool false => "false"
  | Json.num n => toString n
  | Json.str s => "\"" ++ escString s ++ "\""
  | Json.arr l => "[" ++ dumpsElems l ++ "]"

/-- Comma-separated serialisation of the elements of a JSON array. -/
def dumpsElems : List Json → String
  | [] => ""
  | [x] => dumps x
  | x :: y :: xs => dumps x ++ ", " ++ dumpsElems (y :: xs)

end

/-- The envelope transform from line 12 of the script, `obj[:-6] + obj[-2:]`,
with Python's slicing semantics (clamped at the ends, never failing). -/
def pyTransform (l : List α) : List α :=
  l.take (l.length - 6) ++ l.drop (l.length - 2)

/-- The apostrophe character, the last character of the `)]}'` marker. -/
def apos : Char := Char.ofNat 39

/-- The four-character marker `)]}'` stripped from the POST response. -/
def stripPat : String := ⟨[')', ']', '}', apos]⟩

/-- Python's `text.replace(")]}'", "")` from line 22 of the script: one
left-to-right pass deleting every non-overlapping occurrence of the
four-character marker.  The marker starts with a parenthesis and has
none later, so after a failed four-character match the scan may resume
past the unmatched bracket characters. -/
def stripAll : List Char → List Char
  | [] => []
  | ')' :: ']' :: '}' :: c :: rest =>
      if c = apos then stripAll rest
      else ')' :: ']' :: '}' :: stripAll (c :: rest)
  | c :: rest => c :: stripAll rest

/-- String-level wrapper for the `)]}'` deletion of line 22. -/
def pyStrip (s : String) : String := ⟨stripAll s.data⟩

/-- The replacement text of line 9 of the script. -/
def garturlSub : List Char := ('[' :: Char.ofNat 34 :: "garturlreq".data) ++ [Char.ofNat 34, ',']

/-- Python's `data.replace('%.@.', '["garturlreq",')` from line 9: one
left-to-right pass replacing every non-overlapping occurrence of the
four-character marker `%.@.`.  The marker starts with a percent sign and
has none later, so a failed match resumes right after the percent sign. -/
def garturl : List Char → List Char
  | [] => []
  | '%' :: '.' :: '@' :: '.' :: rest => garturlSub ++ garturl rest
  | c :: rest => c :: garturl rest

/-- String-level wrapper for the `%.@.` rewrite of line 9. -/
def pyGarturl (s : String) : String := ⟨garturl s.data⟩

/-- JSON whitespace characters. -/
def isWs (c : Char) : Bool :=
  c = ' ' || c = Char.ofNat 10 || c = Char.ofNat 13 || c = Char.ofNat 9

/-- Skip leading JSON whitespace. -/
def skipWs (s : List Char) : List Char := s.dropWhile isWs

/-- Value of a hexadecimal digit, if any. -/
def hexVal (c : Char) : Option Nat :=
  if 48 ≤ c.toNat ∧ c.toNat ≤ 57 then some (c.toNat - 48)
  else if 97 ≤ c.toNat ∧ c.toNat ≤ 102 then some (c.toNat - 87)
  else if 65 ≤ c.toNat ∧ c.toNat ≤ 70 then some (c.toNat - 55)
  else none

/-- The two-character escapes accepted inside JSON string literals. -/
def escMap (c : Char) : Option Char :=
  if c = Char.ofNat 34 then some (Char.ofNat 34)
  else if c = '\\' then some '\\'
  else if c = '/' then some '/'
  else if c = 'b' then some (Char.ofNat 8)
  else if c = 'f' then some (Char.ofNat 12)
  else if c = 'n' then some (Char.ofNat 10)
  else if c = 'r' then some (Char.ofNat 13)
  else if c = 't' then some (Char.ofNat 9)
  else none

/-- Parse the body of a JSON string literal after its opening quote,
returning the decoded characters and the input after the closing quote.
Unescaped control characters are rejected, as Python's strict decoder
does. -/
def parseStrBody : List Char → Option (List Char × List Char)
  | [] => none
  | '\\' :: 'u' :: h1 :: h2 :: h3 :: h4 :: rest =>
      match hexVal h1, hexVal h2, hexVal h3, hexVal h4 with
      | some a, some b, some c, some d =>
          (parseStrBody rest).map
            (fun p => (Char.ofNat (a * 4096 + b * 256 + c * 16 + d) :: p.1, p.2))
      | _, _, _, _ => none
  | ['\\'] => none
  | '\\' :: e :: rest =>
      match escMap e with
      | some c => (parseStrBody rest).map (fun p => (c :: p.1, p.2))
      | none => none
  | c :: rest =>
      if c = Char.ofNat 34 then some ([], rest)
      else if c.toNat < 32 then none
      else (parseStrBody rest).map (fun p => (c :: p.1, p.2))

/-- Numeric value of a digit string. -/
def digitsVal (l : List Char) : Nat :=
  l.foldl (fun n c => 10 * n + (c.toNat - 48)) 0

/-- Parse a JSON integer literal (the script's data never carries
floats; a fractional or exponent part makes the surrounding parse
fail rather than silently truncate). -/
def parseNum (s : List Char) : Option (Json × List Char) :=
  match s with
  | '-' :: rest =>
      let ds := rest.takeWhile Char.isDigit
      if ds.isEmpty then none
      else some (Json.num (-(digitsVal ds : Int)), rest.drop ds.length)
  | _ =>
      let ds := s.takeWhile Char.isDigit
      if ds.isEmpty then none
      else some (Json.num (digitsVal ds), s.drop ds.length)

/-- Fuel-indexed JSON parser modelling Python's `json.loads` on the
subset of JSON the script's data takes.  Mode `false` parses one value;
mode `true` parses the remaining comma-separated elements of an array
(the input already past the opening bracket and known not to start with
a closing bracket) and returns them as an array value together with the
input after the closing bracket. -/
def parseCore : Nat → Bool → List Char → Option (Json × List Char)
  | 0, _, _ => none
  | f + 1, true, s =>
      match parseCore f false s with
      | none => none
      | some (v, rest) =>
        match skipWs rest with
        | ',' :: rest2 =>
          match parseCore f true rest2 with
          | some (Json.arr vs, rest3) => some (Json.arr (v :: vs), rest3)
          | _ => none
        | ']' :: rest2 => some (Json.arr [v], rest2)
        | _ => none
  | f + 1, false, s0 =>
      match skipWs s0 with
      | [] => none
      | 'n' :: 'u' :: 'l' :: 'l' :: rest => some (Json.null, rest)
      | 't' :: 'r' :: 'u' :: 'e' :: rest => some (Json.bool true, rest)
      | 'f' :: 'a' :: 'l' :: 's' :: 'e' :: rest => some (Json.bool false, rest)
      | '[' :: rest =>
          match skipWs rest with
          | ']' :: rest2 => some (Json.arr [], rest2)
          | r => parseCore f true r
      | c :: rest =>
          if c = Char.ofNat 34 then
            (parseStrBody rest).map (fun p => (Json.str ⟨p.1⟩, p.2))
          else parseNum (c :: rest)

/-- Python's `json.loads`: parse one JSON value and insist that only
whitespace follows it.  The fuel passed to the core parser is enough for
any input, since every two recursion steps consume at least one
character. -/
def jsonLoads (s : String) : Option Json :=
  match parseCore (2 * s.data.length + 2) false s.data with
  | some (v, rest) => if skipWs rest = [] then some v else none
  | none => none

/-- Lines 22-23 of the script applied to already-stripped response text:
`json.loads(text)[0][2]` followed by `json.loads(array_string)[1]`.
Failed indexing or a non-string where `json.loads` expects one raises in
Python and aborts the run, modelled by `none`.  Python indexing is
modelled for arrays, plus single-character indexing of strings (the one
other value shape Python would index without raising). -/
def extractFromBody (jsonText : String) : Option Json :=
  match jsonLoads jsonText with
  | some (Json.arr l) =>
    match l[0]? with
    | some (Json.arr l2) =>
      match l2[2]? with
      | some (Json.str s) =>
        match jsonLoads s with
        | some (Json.arr l3) => l3[1]?
        | some (Json.str s2) => (s2.data[1]?).map (fun c => Json.str ⟨[c]⟩)
        | _ => none
      | _ => none
    | _ => none
  | _ => none

/-- The full result extraction of lines 22-23: delete every occurrence
of the `)]}'` marker from the POST response body, then parse and index
into the doubly encoded JSON. -/
def codeExtract (body : String) : Option Json :=
  extractFromBody (pyStrip body)

/-- Scan for an occurrence of `<c-wiz` opening a tag (followed by a
character that ends the tag name) and return the rest of the input from
just after the tag name.  Modelled from the spec: BeautifulSoup element
lookup for tag `c-wiz`. -/
def afterCWiz : List Char → Option (List Char)
  | '<' :: 'c' :: '-' :: 'w' :: 'i' :: 'z' :: c :: rest =>
      if isWs c ∨ c = '>' ∨ c = '/' then some (c :: rest)
      else afterCWiz rest
  | _ :: rest => afterCWiz rest
  | [] => none

/-- Scan the inside of a tag for a `data-p` attribute with a
double-quoted value, preceded by whitespace, and return the input from
just after the opening quote.  Modelled from the spec: attribute lookup
of the CSS selector `c-wiz[data-p]`. -/
def afterDataP : List Char → Option (List Char)
  | c :: 'd' :: 'a' :: 't' :: 'a' :: '-' :: 'p' :: '=' :: q :: rest =>
      if isWs c ∧ q = Char.ofNat 34 then some rest
      else afterDataP ('d' :: 'a' :: 't' :: 'a' :: '-' :: 'p' :: '=' :: q :: rest)
  | _ :: rest => afterDataP rest
  | [] => none

/-- Decode the HTML character entities that can appear in a double
quoted attribute value.  Modelled from the spec: BeautifulSoup returns
attribute values with entities decoded. -/
def htmlDecode : List Char → List Char
  | '&' :: 'q' :: 'u' :: 'o' :: 't' :: ';' :: rest => Char.ofNat 34 :: htmlDecode rest
  | '&' :: 'a' :: 'm' :: 'p' :: ';' :: rest => '&' :: htmlDecode rest
  | '&' :: 'l' :: 't' :: ';' :: rest => '<' :: htmlDecode rest
  | '&' :: 'g' :: 't' :: ';' :: rest => '>' :: htmlDecode rest
  | '&' :: '#' :: '3' :: '9' :: ';' :: rest => apos :: htmlDecode rest
  | c :: rest => c :: htmlDecode rest
  | [] => []

/-- Find the first `c-wiz` tag carrying a `data-p` attribute and return
the raw attribute value; when a `c-wiz` tag has no such attribute, keep
scanning for the next one.  The fuel only bounds the number of tags
inspected, so the input length is always enough. -/
def findDataP : Nat → List Char → Option (List Char)
  | 0, _ => none
  | f + 1, s =>
      match afterCWiz s with
      | none => none
      | some t =>
        match afterDataP (t.takeWhile (fun c => c ≠ '>')) with
        | some afterQuote => some (afterQuote.takeWhile (fun c => c ≠ Char.ofNat 34))
        | none => findDataP f t

/-- Line 8 of the script, modelled from the spec:
`BeautifulSoup(resp.text, 'html.parser').select_one('c-wiz[data-p]').get('data-p')`
locates the first `c-wiz` element having a `data-p` attribute and
returns its entity-decoded value; `none` when no such element exists
(in Python, `select_one` returns `None` and the `.get` call raises). -/
def selectDataP (html : String) : Option String :=
  (findDataP (html.data.length + 1) html.data).map (fun l => ⟨htmlDecode l⟩)

/-- Python's `obj[:-6] + obj[-2:]` from line 12 in the case where
`json.loads` produced a string: string slicing and concatenation. -/
def pyStrTransform (s : String) : String :=
  ⟨s.data.take (s.data.length - 6) ++ s.data.drop (s.data.length - 2)⟩

/-- Line 12 of the script: the value placed under form field `f.req`,
`json.dumps([[['Fbv4je', json.dumps(obj[:-6] + obj[-2:]), 'null', 'generic']]])`,
for an array token `obj`. -/
def buildFReq (obj : List Json) : String :=
  dumps (Json.arr [Json.arr [Json.arr
    [Json.str "Fbv4je", Json.str (dumps (Json.arr (pyTransform obj))),
     Json.str "null", Json.str "generic"]]])

/-- The same form field value for the degenerate case of a string token,
which Python's slicing also accepts. -/
def buildFReqStr (s : String) : String :=
  dumps (Json.arr [Json.arr [Json.arr
    [Json.str "Fbv4je", Json.str (dumps (Json.str (pyStrTransform s))),
     Json.str "null", Json.str "generic"]]])

/-- Envelope construction as worded by the spec, step C: serialise the
transformed sequence to a JSON string `innerPayload`, construct
`[[["Fbv4je", innerPayload, "null", "generic"]]]`, and serialise that to
a JSON string. -/
def specFReq (obj : List Json) : String :=
  let innerPayload : String := dumps (Json.arr (pyTransform obj))
  dumps (Json.arr [Json.arr [Json.arr
    [Json.str "Fbv4je", Json.str innerPayload, Json.str "null", Json.str "generic"]]])

/-- Failure taxonomy of the spec: transport failures surface as
`NetworkError`; every other uncaught exception of the reference script
(missing element, JSON decode error, bad index, bad type) is a
`ParseError`-class abort. -/
inductive Err where
  | network : Err
  | parse : Err
deriving DecidableEq

/-- An HTTP response as the script sees it: a status code and a body.
The reference script never inspects the status. -/
structure HttpResponse where
  status : Nat
  body : String

/-- Observable outcome of one run: the final result (the printed value
on success, the abort class otherwise) and the `f.req` form field value
of the POST, `none` when no POST was attempted. -/
structure RunTrace where
  result : Except Err Json
  posted : Option String

/-- Steps D-E of the script, lines 21-23: POST the `f.req` form field
(the POST outcome is given as a function of the field value sent), then
strip the `)]}'` marker from the response body and extract the article
value.  A transport failure of the POST aborts with the network class;
a failed extraction aborts with the parse class. -/
def postStep (freq : String) (postR : String → Except Unit HttpResponse) : RunTrace :=
  match postR freq with
  | Except.error _ => ⟨Except.error Err.network, some freq⟩
  | Except.ok p =>
    match codeExtract p.body with
    | some v => ⟨Except.ok v, some freq⟩
    | none => ⟨Except.error Err.parse, some freq⟩

/-- Lines 8-9 of the script: the parsed token obtained from the GET
response body, `none` when the element is missing (Python's
`AttributeError` on `None.get`) or the rewritten attribute is not valid
JSON. -/
def tokenOf (body : String) : Option Json :=
  (selectDataP body).bind (fun dataP => jsonLoads (pyGarturl dataP))

/-- Line 12 of the script: the `f.req` value for a given token.  Python
slicing accepts lists and strings; any other token raises a `TypeError`
in the slice, aborting before the POST. -/
def freqOf : Json → Option String
  | Json.arr obj => some (buildFReq obj)
  | Json.str s => some (buildFReqStr s)
  | _ => none

/-- The whole script over explicit transport, lines 7-25: the GET
outcome (`Except` error for a transport-level failure, which
`requests.get` raises), then extract `data-p`, rewrite `%.@.`,
JSON-parse the token, build the envelope, and run `postStep`.  A token
that parses to a number, boolean, or null, or fails to parse, aborts
before the POST (Python raises in the slice or in `json.loads`). -/
def run (getR : Except Unit HttpResponse) (postR : String → Except Unit HttpResponse) :
    RunTrace :=
  match getR with
  | Except.error _ => ⟨Except.error Err.network, none⟩
  | Except.ok g =>
    match (tokenOf g.body).bind freqOf with
    | none => ⟨Except.error Err.parse, none⟩
    | some freq => postStep freq postR

/-- The mocked GET body of the spec's end-to-end scenario, exactly as
the spec writes it. -/
def mockedHtml1 : String :=
  "<c-wiz data-p=\"%.@.[&quot;id1&quot;,2,3,4,5,6,7,8]\"></c-wiz>"

/-- The end-to-end scenario's GET body with the attribute value the
reference rewrite actually expects: nothing between the `%.@.` marker
and the first array element, since the rewrite itself supplies the
opening bracket. -/
def mockedHtml2 : String :=
  "<c-wiz data-p=\"%.@.&quot;id1&quot;,2,3,4,5,6,7,8]\"></c-wiz>"

/-- The mocked POST response body of the end-to-end scenario. -/
def mockedPostBody : String :=
  stripPat ++ "\n[[0,0,\"[0,\\\"https://example.com/article\\\"]\"]]"

/-- The token the end-to-end scenario expects after the rewrite: nine
elements. -/
def token9 : List Json :=
  [Json.str "garturlreq", Json.str "id1", Json.num 2, Json.num 3, Json.num 4,
   Json.num 5, Json.num 6, Json.num 7, Json.num 8]

/-- The serialised envelope for `token9`, as the script sends it. -/
def expectedFReq : String :=
  "[[[\"Fbv4je\", \"[\\\"garturlreq\\\", \\\"id1\\\", 2, 7, 8]\", \"null\", \"generic\"]]]"

/-- Mocked POST transport that answers only the expected envelope. -/
def mockedPost : String → Except Unit HttpResponse :=
  fun f => if f = expectedFReq then Except.ok ⟨200, mockedPostBody⟩ else Except.error ()

/-- The body on which a second deletion pass differs from the first: the
marker is reassembled from the pieces around a deleted inner occurrence. -/
def c5Body : String := ")]" ++ stripPat ++ ⟨['}', apos]⟩

/-- A POST response whose JSON payload itself contains the marker. -/
def c4Rest : String := "[[0,0,\"[0,\\\"" ++ stripPat ++ "\\\"]\"]]"

/-- An infix of a tail is an infix of the whole list (contrapositive). -/
theorem not_infix_tail {p : List Char} {c : Char} {cs : List Char}
    (h : ¬ p <:+: (c :: cs)) : ¬ p <:+: cs :=
  fun h2 => h (List.infix_cons h2)

/-- The single-pass deletion leaves a string without any occurrence of
the `)]}'` marker unchanged. -/
theorem stripAll_eq_self (s : List Char) (h : ¬ stripPat.data <:+: s) : stripAll s = s := by
  induction s using stripAll.induct with
  | case1 => rfl
  | case2 rest _ =>
      exact absurd ⟨[], rest, rfl⟩ h
  | case3 c rest hc ih =>
      have h3 : ¬ stripPat.data <:+: (c :: rest) :=
        not_infix_tail (not_infix_tail (not_infix_tail h))
      rw [stripAll.eq_2, if_neg hc, ih h3]
  | case4 c rest hne ih =>
      have h1 : ¬ stripPat.data <:+: rest := not_infix_tail h
      rw [stripAll.eq_3 c rest hne, ih h1]

/-- The single-pass deletion removes a leading `)]}'` marker and goes on
with the remainder. -/
theorem stripAll_marker (rest : List Char) :
    stripAll (stripPat.data ++ rest) = stripAll rest := by
  rw [show stripPat.data ++ rest = ')' :: ']' :: '}' :: apos :: rest from rfl,
    stripAll.eq_2, if_pos rfl]

/-- The POST step depends on the transport only through the response
body it yields for the field value actually sent. -/
theorem postStep_ext (freq : String) (pf pf' : String → Except Unit HttpResponse)
    (h : (pf freq).map HttpResponse.body = (pf' freq).map HttpResponse.body) :
    postStep freq pf = postStep freq pf' := by
  unfold postStep
  cases hpf : pf freq with
  | error e =>
    cases hpf' : pf' freq with
    | error e' => rfl
    | ok p' => rw [hpf, hpf'] at h; simp [Except.map] at h
  | ok p =>
    cases hpf' : pf' freq with
    | error e' => rw [hpf, hpf'] at h; simp [Except.map] at h
    | ok p' =>
      rw [hpf, hpf'] at h
      simp only [Except.map, Except.ok.injEq] at h
      show (match codeExtract p.body with
            | some v => (⟨Except.ok v, some freq⟩ : RunTrace)
            | none => ⟨Except.error Err.parse, some freq⟩) =
          (match codeExtract p'.body with
            | some v => (⟨Except.ok v, some freq⟩ : RunTrace)
            | none => ⟨Except.error Err.parse, some freq⟩)
      rw [h]

/-- The run depends on the transport only through the response bodies:
equal GET bodies and pointwise equal POST bodies give equal traces. -/
theorem run_ext (g g' : HttpResponse) (pf pf' : String → Except Unit HttpResponse)
    (hb : g.body = g'.body)
    (hp : ∀ s, (pf s).map HttpResponse.body = (pf' s).map HttpResponse.body) :
    run (Except.ok g) pf = run (Except.ok g') pf' := by
  show (match (tokenOf g.body).bind freqOf with
        | none => (⟨Except.error Err.parse, none⟩ : RunTrace)
        | some freq => postStep freq pf) =
      (match (tokenOf g'.body).bind freqOf with
        | none => (⟨Except.error Err.parse, none⟩ : RunTrace)
        | some freq => postStep freq pf')
  rw [hb]
  cases (tokenOf g'.body).bind freqOf with
  | none => rfl
  | some freq => exact postStep_ext freq pf pf' (hp freq)

/-- For at least six elements, the transform drops exactly four. -/
theorem pyTransform_length {α : Type} (l : List α) (h : 6 ≤ l.length) :
    (pyTransform l).length = l.length - 4 := by
  simp only [pyTransform, List.length_append, List.length_take, List.length_drop]
  omega

/-- Under six elements, the first slice is empty and the transform
returns the last two elements (everything, under two). -/
theorem pyTransform_small {α : Type} (l : List α) (h : l.length < 6) :
    pyTransform l = l.drop (l.length - 2) := by
  unfold pyTransform
  rw [show l.length - 6 = 0 from by omega, List.take_zero, List.nil_append]

/-- The transform of a list split as `pre ++ mid ++ post` with `mid` of
length 4 and `post` of length 2: the last six elements (`mid ++ post`)
are removed and the last two (`post`) appended. -/
theorem pyTransform_split {α : Type} (pre mid post : List α)
    (hm : mid.length = 4) (hp : post.length = 2) :
    pyTransform (pre ++ mid ++ post) = pre ++ post := by
  have hlen : (pre ++ mid ++ post).length = pre.length + 6 := by
    simp [List.length_append, hm, hp]
  have e1 : pre.length + 6 - 6 = pre.length := by omega
  have e2 : pre.length + 6 - 2 = (pre ++ mid).length := by
    simp [List.length_append, hm]
  have htake : (pre ++ mid ++ post).take pre.length = pre := by
    rw [List.append_assoc]; exact List.take_left' rfl
  have hdrop : (pre ++ mid ++ post).drop ((pre ++ mid).length) = post :=
    List.drop_left _ _
  calc pyTransform (pre ++ mid ++ post)
      = (pre ++ mid ++ post).take pre.length
          ++ (pre ++ mid ++ post).drop ((pre ++ mid).length) := by
        unfold pyTransform; rw [hlen, e1, e2]
    _ = pre ++ post := by rw [htake, hdrop]

/-- C1: the envelope transform is a pure function of the token sequence;
for length `n ≥ 8` it equals `obj[0:n-6] + obj[n-2:n]` and has length
`n - 4` — but on `obj = [1,2,3,4,5,6,7,8]` it yields `[1,2,7,8]`, not
the `[1,2,3,4,7,8]` the claim asserts (its counterexample). -/
theorem c1_counterexample :
    pyTransform ([1, 2, 3, 4, 5, 6, 7, 8] : List Nat) = [1, 2, 7, 8] ∧
    ([1, 2, 7, 8] : List Nat) ≠ [1, 2, 3, 4, 7, 8] := by
  refine ⟨by decide, by decide⟩

/-- C1 (amended): for every token sequence `obj` of length `n ≥ 8` the
inner payload equals `obj[0:n-6] + obj[n-2:n]` (removing the last six
elements and appending the last two of the original), always of length
`n - 4`; the literal example `[1,2,3,4,5,6,7,8]` transforms to
`[1,2,7,8]`. -/
theorem c1_theorem :
    (∀ obj : List Json, 8 ≤ obj.length →
        pyTransform obj = obj.take (obj.length - 6) ++ obj.drop (obj.length - 2)) ∧
    (∀ obj : List Json, 8 ≤ obj.length → (pyTransform obj).length = obj.length - 4) ∧
    (∀ pre mid post : List Json, mid.length = 4 → post.length = 2 →
        pyTransform (pre ++ mid ++ post) = pre ++ post) ∧
    pyTransform ([1, 2, 3, 4, 5, 6, 7, 8] : List Nat) = [1, 2, 7, 8] :=
  ⟨fun _ _ => rfl, fun obj h => pyTransform_length obj (by omega),
   fun pre mid post hm hp => pyTransform_split pre mid post hm hp, by decide⟩

/-- C1: witness discharging the hypotheses of `c1_theorem` at concrete
inputs. -/
theorem c1_witness :
    (pyTransform [Json.num 1, Json.num 2, Json.num 3, Json.num 4, Json.num 5,
        Json.num 6, Json.num 7, Json.num 8]).length
      = ([Json.num 1, Json.num 2, Json.num 3, Json.num 4, Json.num 5,
        Json.num 6, Json.num 7, Json.num 8] : List Json).length - 4 ∧
    pyTransform ([Json.num 0, Json.num 1] ++
        [Json.num 2, Json.num 3, Json.num 4, Json.num 5] ++ [Json.num 6, Json.num 7])
      = [Json.num 0, Json.num 1] ++ [Json.num 6, Json.num 7] :=
  ⟨c1_theorem.2.1 _ (by decide),
   c1_theorem.2.2.1 [Json.num 0, Json.num 1]
     [Json.num 2, Json.num 3, Json.num 4, Json.num 5] [Json.num 6, Json.num 7] rfl rfl⟩

/-- C9: the transform `obj[:-6] + obj[-2:]` is total, with no error
branch: for length at least 6 the result has length `len - 4`; under 6
the first slice is empty and the result is the last `min 2 len`
elements; and the empty list maps to the empty list. -/
theorem c9_theorem :
    (∀ l : List Json, 6 ≤ l.length → (pyTransform l).length = l.length - 4) ∧
    (∀ l : List Json, l.length < 6 → pyTransform l = l.drop (l.length - 2)) ∧
    (∀ l : List Json, l.length < 6 → (pyTransform l).length = min 2 l.length) ∧
    pyTransform ([] : List Json) = [] := by
  refine ⟨fun l h => pyTransform_length l h, fun l h => pyTransform_small l h,
    fun l h => ?_, rfl⟩
  rw [pyTransform_small l h, List.length_drop]
  omega

/-- C9: witness discharging the hypotheses of `c9_theorem` at concrete
inputs. -/
theorem c9_witness :
    (pyTransform [Json.num 1, Json.num 2, Json.num 3, Json.num 4, Json.num 5,
        Json.num 6]).length
      = ([Json.num 1, Json.num 2, Json.num 3, Json.num 4, Json.num 5,
        Json.num 6] : List Json).length - 4 ∧
    pyTransform [Json.num 1, Json.num 2, Json.num 3]
      = ([Json.num 1, Json.num 2, Json.num 3] : List Json).drop 1 ∧
    (pyTransform [Json.num 1, Json.num 2, Json.num 3]).length = min 2 3 :=
  ⟨c9_theorem.1 _ (by decide), c9_theorem.2.1 _ (by decide),
   c9_theorem.2.2.1 [Json.num 1, Json.num 2, Json.num 3] (by decide)⟩

/-- C3: for every token sequence, the `f.req` value is the JSON
serialisation of `[[["Fbv4je", innerPayload, "null", "generic"]]]`,
where `innerPayload` is itself the JSON serialisation of the transformed
sequence — double JSON encoding with the three fixed literals in that
order; on the nine-element example token the value is the expected
literal string. -/
theorem c3_theorem :
    (∀ obj : List Json, buildFReq obj = specFReq obj) ∧
    buildFReq token9 = expectedFReq ∧
    expectedFReq =
      dumps (Json.arr [Json.arr [Json.arr [Json.str "Fbv4je",
        Json.str (dumps (Json.arr (pyTransform token9))),
        Json.str "null", Json.str "generic"]]]) :=
  ⟨fun _ => rfl, rfl, rfl⟩

/-- C8: both substring rewrites are replace-all, not prefix-only: the
`)]}'` deletion removes an inner occurrence as well as the leading one
(altering a body whose JSON payload contains the marker beyond prefix
removal) and removes a purely internal occurrence; the `%.@.` rewrite
replaces both occurrences in a value containing two. -/
theorem c8_theorem :
    pyStrip (stripPat ++ "\n[[1,2,\"" ++ stripPat ++ "\"]]") = "\n[[1,2,\"\"]]" ∧
    pyStrip (stripPat ++ "\n[[1,2,\"" ++ stripPat ++ "\"]]")
      ≠ "\n[[1,2,\"" ++ stripPat ++ "\"]]" ∧
    pyStrip ("ab" ++ stripPat ++ "cd") = "abcd" ∧
    pyGarturl "%.@.A%.@.B" = "[\"garturlreq\",A[\"garturlreq\",B" :=
  ⟨rfl, by decide, rfl, rfl⟩

/-- C5: the `)]}'` operation of the script is not idempotent: deleting
all occurrences can splice a new occurrence together, as on
`")])]}'}'"`, where one pass leaves `")]}'"` and a second pass leaves
the empty string (counterexample to the claim). -/
theorem c5_counterexample : pyStrip (pyStrip c5Body) ≠ pyStrip c5Body := by
  decide

/-- C5 (amended): the stripping operation is idempotent on every body
whose one-pass result contains no occurrence of the `)]}'` marker —
in particular on every well-formed response, where the marker occurs
only as the leading prefix. -/
theorem c5_theorem (s : String) (h : ¬ stripPat.data <:+: (pyStrip s).data) :
    pyStrip (pyStrip s) = pyStrip s :=
  congrArg String.mk (stripAll_eq_self _ h)

/-- C5: witness discharging the hypothesis of `c5_theorem` at a concrete
response body. -/
theorem c5_witness :
    ¬ stripPat.data <:+: (pyStrip (stripPat ++ "\n[[1,2]]")).data ∧
    pyStrip (pyStrip (stripPat ++ "\n[[1,2]]")) = pyStrip (stripPat ++ "\n[[1,2]]") :=
  ⟨by decide, c5_theorem _ (by decide)⟩

/-- C4: the claim fails for a body whose JSON remainder itself contains
the `)]}'` marker: the code's replace-all deletes the inner occurrence
too, extracting the empty string where the claimed
strip-prefix-then-parse extraction yields the marker itself. -/
theorem c4_counterexample :
    (jsonLoads c4Rest).isSome = true ∧
    codeExtract (stripPat ++ c4Rest) = some (Json.str "") ∧
    extractFromBody c4Rest = some (Json.str stripPat) ∧
    some (Json.str "") ≠ some (Json.str stripPat) := by
  refine ⟨rfl, rfl, rfl, ?_⟩
  intro hcontra
  have h1 : Json.str "" = Json.str stripPat := Option.some.inj hcontra
  have h2 : ("" : String) = stripPat := Json.str.inj h1
  exact absurd h2 (by decide)

/-- C4 (amended): for every POST response body that starts with the
`)]}'` marker and whose remainder parses as JSON and contains no further
occurrence of the marker, the extracted result equals: parse the
remainder, take element 0, take element 2 of that, parse that string,
take element 1; on the body `")]}'\n[[1,2,\"[3,4]\"]]"` the extracted
value is `4`. -/
theorem c4_theorem :
    (∀ rest : String, (jsonLoads rest).isSome = true →
        ¬ stripPat.data <:+: rest.data →
        codeExtract (stripPat ++ rest) = extractFromBody rest) ∧
    codeExtract (stripPat ++ "\n[[1,2,\"[3,4]\"]]") = some (Json.num 4) := by
  refine ⟨fun rest _ h => ?_, rfl⟩
  show extractFromBody (pyStrip (stripPat ++ rest)) = extractFromBody rest
  have h1 : pyStrip (stripPat ++ rest) = rest := by
    show String.mk (stripAll (stripPat ++ rest).data) = rest
    rw [String.data_append, stripAll_marker, stripAll_eq_self _ h]
  rw [h1]

/-- C4: witness discharging the hypotheses of `c4_theorem` at the
concrete example body. -/
theorem c4_witness :
    (jsonLoads "\n[[1,2,\"[3,4]\"]]").isSome = true ∧
    ¬ stripPat.data <:+: ("\n[[1,2,\"[3,4]\"]]" : String).data ∧
    codeExtract (stripPat ++ "\n[[1,2,\"[3,4]\"]]")
      = extractFromBody "\n[[1,2,\"[3,4]\"]]" :=
  ⟨rfl, by decide, c4_theorem.1 "\n[[1,2,\"[3,4]\"]]" rfl (by decide)⟩

/-- C2: with the spec's exact mocked GET body the scenario fails: the
attribute keeps its own opening bracket after `%.@.`, so the rewrite
(which supplies a bracket of its own) produces unbalanced JSON, the
token parse fails, and the run aborts with a parse error before any POST
(counterexample to the claimed end-to-end behaviour). -/
theorem c2_counterexample :
    selectDataP mockedHtml1 = some "%.@.[\"id1\",2,3,4,5,6,7,8]" ∧
    jsonLoads (pyGarturl "%.@.[\"id1\",2,3,4,5,6,7,8]") = none ∧
    (run (Except.ok ⟨200, mockedHtml1⟩)
        (fun _ => Except.ok ⟨200, mockedPostBody⟩)).result = Except.error Err.parse ∧
    (run (Except.ok ⟨200, mockedHtml1⟩)
        (fun _ => Except.ok ⟨200, mockedPostBody⟩)).posted = none :=
  ⟨rfl, rfl, rfl, rfl⟩

/-- C2 (amended): end-to-end with mocked transport, with the mocked HTML
carrying `data-p="%.@.&quot;id1&quot;,2,3,4,5,6,7,8]"` (no bracket after
the marker): the parsed token is `["garturlreq","id1",2,3,4,5,6,7,8]`
(nine elements), the inner payload sequence is
`["garturlreq","id1",2,7,8]`, the POST body's `f.req` field equals the
serialised envelope (the mocked transport answers only that exact
value), and the mocked POST response yields the final output
`https://example.com/article`. -/
theorem c2_theorem :
    selectDataP mockedHtml2 = some "%.@.\"id1\",2,3,4,5,6,7,8]" ∧
    jsonLoads (pyGarturl "%.@.\"id1\",2,3,4,5,6,7,8]") = some (Json.arr token9) ∧
    pyTransform token9 = [Json.str "garturlreq", Json.str "id1", Json.num 2,
      Json.num 7, Json.num 8] ∧
    (run (Except.ok ⟨200, mockedHtml2⟩) mockedPost).posted = some expectedFReq ∧
    (run (Except.ok ⟨200, mockedHtml2⟩) mockedPost).result
      = Except.ok (Json.str "https://example.com/article") :=
  ⟨rfl, rfl, rfl, rfl, rfl⟩

/-- C6: when the GET body has no `c-wiz` element with a non-empty
`data-p` attribute, the run aborts with the parse-error class (in Python
the `AttributeError` on `None.get`, or the decode error on the empty
attribute) and no POST is ever attempted. -/
theorem c6_theorem (g : HttpResponse) (pf : String → Except Unit HttpResponse)
    (h : selectDataP g.body = none ∨ selectDataP g.body = some "") :
    (run (Except.ok g) pf).result = Except.error Err.parse ∧
    (run (Except.ok g) pf).posted = none := by
  have htok : (tokenOf g.body).bind freqOf = none := by
    rcases h with h | h <;> (unfold tokenOf; rw [h]; rfl)
  have hrun : run (Except.ok g) pf = ⟨Except.error Err.parse, none⟩ := by
    show (match (tokenOf g.body).bind freqOf with
          | none => (⟨Except.error Err.parse, none⟩ : RunTrace)
          | some freq => postStep freq pf) = ⟨Except.error Err.parse, none⟩
    rw [htok]
  rw [hrun]
  exact ⟨rfl, rfl⟩

/-- C6: witness discharging the hypothesis of `c6_theorem` on a body
with no `c-wiz` element at all. -/
theorem c6_witness :
    (selectDataP "<html></html>" = none ∨ selectDataP "<html></html>" = some "") ∧
    ((run (Except.ok ⟨200, "<html></html>"⟩) (fun _ => Except.error ())).result
        = Except.error Err.parse ∧
     (run (Except.ok ⟨200, "<html></html>"⟩) (fun _ => Except.error ())).posted = none) :=
  ⟨Or.inl rfl, c6_theorem ⟨200, "<html></html>"⟩ _ (Or.inl rfl)⟩

/-- C7: the claim fails: the reference never checks HTTP status, so a
run whose GET returns 404 and whose POST returns 500 still parses the
bodies and prints the article URL instead of failing with a network
error (counterexample). -/
theorem c7_counterexample :
    (run (Except.ok ⟨404, mockedHtml2⟩) (fun _ => Except.ok ⟨500, mockedPostBody⟩)).result
      = Except.ok (Json.str "https://example.com/article") :=
  rfl

/-- C7 (amended): the run ignores HTTP status codes entirely — its trace
depends only on the response bodies, so non-2xx statuses change nothing
— while transport-level failures (the exceptions `requests` raises) do
abort with the network class and no POST. -/
theorem c7_theorem :
    (∀ (st st' : Nat) (b : String) (pf : String → Except Unit HttpResponse),
        run (Except.ok ⟨st, b⟩) pf = run (Except.ok ⟨st', b⟩) pf) ∧
    (∀ pf : String → Except Unit HttpResponse,
        run (Except.error ()) pf = ⟨Except.error Err.network, none⟩) ∧
    (∀ (g : HttpResponse) (pf pf' : String → Except Unit HttpResponse),
        (∀ s, (pf s).map HttpResponse.body = (pf' s).map HttpResponse.body) →
        run (Except.ok g) pf = run (Except.ok g) pf') :=
  ⟨fun st st' b pf => run_ext ⟨st, b⟩ ⟨st', b⟩ pf pf rfl (fun _ => rfl),
   fun _ => rfl,
   fun g pf pf' hp => run_ext g g pf pf' rfl hp⟩

/-- C7: witness discharging the hypothesis of `c7_theorem` with two POST
transports differing only in status. -/
theorem c7_witness :
    run (Except.ok ⟨200, mockedHtml2⟩) (fun _ => Except.ok ⟨200, mockedPostBody⟩)
      = run (Except.ok ⟨200, mockedHtml2⟩) (fun _ => Except.ok ⟨404, mockedPostBody⟩) :=
  c7_theorem.2.2 ⟨200, mockedHtml2⟩ _ _ (fun _ => rfl)

/-- C10: the pipeline is deterministic in the transport bodies: two runs
whose GET bodies are equal and whose POST transports return equal bodies
produce identical traces — the same `f.req` form value and the same
printed result. -/
theorem c10_theorem (g g' : HttpResponse) (pf pf' : String → Except Unit HttpResponse)
    (hb : g.body = g'.body)
    (hp : ∀ s, (pf s).map HttpResponse.body = (pf' s).map HttpResponse.body) :
    run (Except.ok g) pf = run (Except.ok g') pf' :=
  run_ext g g' pf pf' hb hp

/-- C10: witness discharging the hypotheses of `c10_theorem` on two
transports equal up to status codes. -/
theorem c10_witness :
    run (Except.ok ⟨200, mockedHtml2⟩) (fun _ => Except.ok ⟨200, mockedPostBody⟩)
      = run (Except.ok ⟨418, mockedHtml2⟩) (fun _ => Except.ok ⟨500, mockedPostBody⟩) :=
  c10_theorem ⟨200, mockedHtml2⟩ ⟨418, mockedHtml2⟩ _ _ rfl (fun _ => rfl)
